import Mathlib

/-!
Verification of the Zigbee host-controller core of `urmzd/homai`.

The Go sources under `pkg/zigbee` (ash.go, ezsp.go, controller.go, the
serial wrapper and the ZCL codec) are shallowly embedded below: bytes are
`Nat` with explicit `% 256` / `&&& 0xFF` masking where the Go code relies
on fixed-width wraparound, byte strings are `List Nat`, Go maps are
association lists accessed only through lookup/insert/erase helpers, and
the effectful layers (serial writes, channel deliveries) are modelled as
pure functions that also return the list of emitted actions.
-/

namespace Homai

/-! ## ASH protocol constants (ash.go) -/

def ashFlagByte : Nat := 0x7E
def ashEscapeByte : Nat := 0x7D
def ashXON : Nat := 0x11
def ashXOFF : Nat := 0x13
def ashFlipBit : Nat := 0x20
def ashCancelByte : Nat := 0x1A
def ashSubstitute : Nat := 0x18

def ashFrameACK : Nat := 0x80
def ashFrameNAK : Nat := 0xA0

/-- The reserved bytes of the ASH wire protocol, in the order tested by
`ashStuff` in ash.go. -/
def ashReservedBytes : List Nat :=
  [ashFlagByte, ashEscapeByte, ashXON, ashXOFF, ashSubstitute, ashCancelByte]

/-- The reservation test of `ashStuff` (ash.go line 481). -/
def isAshReserved (b : Nat) : Bool :=
  b == ashFlagByte || b == ashEscapeByte || b == ashXON || b == ashXOFF ||
    b == ashSubstitute || b == ashCancelByte

/-- Model of `ashStuff` (ash.go): replace each reserved byte by the escape byte
followed by the byte XOR 0x20. -/
def ashStuff : List Nat → List Nat
  | [] => []
  | b :: rest =>
    if isAshReserved b then
      ashEscapeByte :: (b ^^^ ashFlipBit) :: ashStuff rest
    else
      b :: ashStuff rest

/-- The loop of `ashUnstuff` (ash.go), with the `escaped` flag made an
explicit argument. -/
def ashUnstuffAux : Bool → List Nat → List Nat
  | _, [] => []
  | true, b :: rest => (b ^^^ ashFlipBit) :: ashUnstuffAux false rest
  | false, b :: rest =>
    if b == ashEscapeByte then ashUnstuffAux true rest
    else b :: ashUnstuffAux false rest

/-- Model of `ashUnstuff` (ash.go): reverse ASH byte stuffing. -/
def ashUnstuff (data : List Nat) : List Nat :=
  ashUnstuffAux false data

/-- One iteration of the inner bit loop of `crcCCITT` (ash.go lines
512-518), on a 16-bit accumulator. -/
def crcStep (crc : Nat) : Nat :=
  if crc.testBit 15 then ((crc <<< 1) % 2 ^ 16) ^^^ 0x1021
  else (crc <<< 1) % 2 ^ 16

/-- The per-byte body of `crcCCITT`: XOR the byte into the top of the
accumulator, then run eight `crcStep` iterations. -/
def crcByte (crc b : Nat) : Nat :=
  crcStep^[8] (crc ^^^ ((b <<< 8) % 2 ^ 16))

/-- Model of `crcCCITT` (ash.go): CRC-CCITT with initial value 0xFFFF and
polynomial 0x1021, processed a byte at a time. -/
def crcCCITT (data : List Nat) : Nat :=
  data.foldl crcByte 0xFFFF

/-- Model of `ashSeqLessThan` (ash.go): 3-bit sequence comparison with
wraparound. Go computes `(b - a) & 0x07` on `uint8` operands already
masked to three bits; on `Nat` that wrapping difference is
`(b&7 + 8 - a&7) % 8`. -/
def ashSeqLessThan (a b : Nat) : Bool :=
  let a' := a &&& 0x07
  let b' := b &&& 0x07
  let diff := (b' + 8 - a') % 8
  decide (diff > 0) && decide (diff ≤ 4)

/-- Model of `buildDataFrame` (ash.go): control byte, payload, big-endian CRC,
byte-stuffed, with the flag byte appended. -/
def buildDataFrame (control : Nat) (payload : List Nat) : List Nat :=
  let raw := control :: payload
  let crc := crcCCITT raw
  let raw2 := raw ++ [(crc >>> 8) &&& 0xFF, crc &&& 0xFF]
  ashStuff raw2 ++ [ashFlagByte]

/-! ## ASH receive-path state (ash.go) -/

/-- The sequence-number and retransmission state of `ASHLayer` that
`handleData` reads and writes: `recvSeq` is the next expected frame
number and `pending` the map of unacknowledged sent frames, keyed by
sequence number. -/
structure AshState where
  recvSeq : Nat
  pending : List (Nat × List Nat)
  deriving Repr, DecidableEq

/-- Observable effects of the ASH receive path: writing an ACK frame
(`sendACK` with the given `ack` value), writing a NAK frame (`sendNAK`
with the given `ack` value), or delivering an EZSP payload to the
receive channel. -/
inductive AshAction where
  | txACK (ack : Nat)
  | txNAK (ack : Nat)
  | deliver (payload : List Nat)
  deriving Repr, DecidableEq

/-- Model of `handleData` (ash.go): process a CRC-checked DATA frame. `payload`
is the unstuffed frame without its CRC, so byte 0 is the control byte.
Frames acknowledged by the piggybacked ack are dropped from `pending`;
an in-sequence frame advances `recvSeq`, is ACKed with the advanced
value and its payload (control byte stripped) delivered; anything else
is NAKed with the unchanged `recvSeq` and discarded. -/
def handleData (st : AshState) (payload : List Nat) :
    AshState × List AshAction :=
  match payload with
  | [] => (st, [])
  | control :: rest =>
    let frmNum := (control >>> 4) &&& 0x07
    let npcAck := control &&& 0x07
    let pending' := st.pending.filter (fun p => !ashSeqLessThan p.1 npcAck)
    if frmNum == st.recvSeq then
      let newSeq := (st.recvSeq + 1) &&& 0x07
      (⟨newSeq, pending'⟩, [.txACK newSeq, .deliver rest])
    else
      (⟨st.recvSeq, pending'⟩, [.txNAK st.recvSeq])

/-! ## EZSP framing layer (ezsp.go)

`SendCommand` and `NegotiateVersion` are embedded as pure functions: the
NCP is replaced by a script of responses consumed in order (an empty
script stands for a response timeout), and the effects — ASH data writes
and the ASH reset the layer could have requested — are returned as an
action list. -/

/-- The mutable fields of `EZSPLayer` the version-negotiation path
touches: the rolling 8-bit command sequence number and the wire-format
flag (false = legacy 3-byte header, true = extended 5-byte header). -/
structure EzspState where
  seq : Nat
  extendedFormat : Bool
  deriving Repr, DecidableEq

/-- Effects of the EZSP command path: sending an EZSP frame through ASH
`SendData`, or requesting an ASH `Reset`. `NegotiateVersion` never emits
the latter; it is part of the vocabulary because `ASHLayer.Reset` exists
and the negotiation could have invoked it between attempts. -/
inductive EzspAction where
  | sendFrame (frame : List Nat)
  | ashReset
  deriving Repr, DecidableEq

/-- The EZSP `version` frame ID (ezsp.go: `ezspVersion = 0x0000`). -/
def ezspVersionFrameID : Nat := 0x0000

/-- The desired EZSP protocol version (ezsp.go:
`ezspProtocolVersion = 13`). -/
def ezspProtocolVersion : Nat := 13

/-- The frame layout of `SendCommand` (ezsp.go lines 126-142): legacy
header `seq, 0x00, frameID-low`; extended header `seq, 0x01, 0x00,
frameID as little-endian u16`. -/
def buildEzspFrame (st : EzspState) (frameID : Nat) (params : List Nat) :
    List Nat :=
  if st.extendedFormat then
    st.seq :: 0x01 :: 0x00 :: (frameID &&& 0xFF) ::
      ((frameID >>> 8) &&& 0xFF) :: params
  else
    st.seq :: 0x00 :: (frameID &&& 0xFF) :: params

/-- Model of `SendCommand` (ezsp.go): allocate the sequence number, emit the
framed command, and take the response from the script (none = timeout). -/
def sendCommand (st : EzspState) (frameID : Nat) (params : List Nat)
    (script : List (List Nat)) :
    Option (List Nat) × EzspState × List (List Nat) × List EzspAction :=
  let frame := buildEzspFrame st frameID params
  let st' := { st with seq := (st.seq + 1) % 256 }
  match script with
  | [] => (none, st', [], [.sendFrame frame])
  | r :: restScript => (some r, st', restScript, [.sendFrame frame])

/-- The tail of `NegotiateVersion` (ezsp.go lines 295-315): reject a
response shorter than 4 bytes, otherwise decode protocol version, stack
type and little-endian stack version, switching to the extended format
when the protocol version is at least 8. -/
def parseVersionResponse (st : EzspState) (resp : List Nat) :
    Except String (Nat × Nat × Nat) × EzspState :=
  if resp.length < 4 then (.error "version response too short", st)
  else
    let protocolVersion := resp.getD 0 0
    let stackType := resp.getD 1 0
    let stackVersion := resp.getD 2 0 + 256 * resp.getD 3 0
    let st' :=
      if 8 ≤ protocolVersion then { st with extendedFormat := true } else st
    (.ok (protocolVersion, stackType, stackVersion), st')

/-- Model of `NegotiateVersion` (ezsp.go): reset the sequence to 0, send
`version(13)`; on a 1-byte reply carrying the NCP's supported version,
switch to the extended format first when that version is at least 8,
then resend `version(ncpVersion)` — with no ASH reset in between — and
decode the final response. -/
def negotiateVersion (st : EzspState) (script : List (List Nat)) :
    Except String (Nat × Nat × Nat) × EzspState × List EzspAction :=
  let st0 := { st with seq := 0 }
  match sendCommand st0 ezspVersionFrameID [ezspProtocolVersion] script with
  | (none, st1, _, a1) => (.error "version negotiation timeout", st1, a1)
  | (some resp, st1, restScript, a1) =>
    if resp.length == 1 then
      let ncpVersion := resp.getD 0 0
      let st2 :=
        if 8 ≤ ncpVersion then { st1 with extendedFormat := true } else st1
      match sendCommand st2 ezspVersionFrameID [ncpVersion] restScript with
      | (none, st3, _, a2) =>
        (.error "version negotiation retry timeout", st3, a1 ++ a2)
      | (some resp2, st3, _, a2) =>
        let r := parseVersionResponse st3 resp2
        (r.1, r.2, a1 ++ a2)
    else
      let r := parseVersionResponse st1 resp
      (r.1, r.2, a1)

/-! ## ZCL codec (zcl.go) -/

/-- ZCL cluster and command constants (zcl.go). -/
def zclClusterOnOff : Nat := 0x0006
def zclClusterLevelControl : Nat := 0x0008
def zclCmdOff : Nat := 0x00
def zclCmdOn : Nat := 0x01
def zclCmdToggle : Nat := 0x02
def zclCmdMoveToLevelWithOnOff : Nat := 0x04
def zclFrameTypeClusterSpecific : Nat := 0x01
def zclDirectionClientToServer : Nat := 0x00
def zclProfileHA : Nat := 0x0104

/-- Model of `nextZCLSeq` (zcl.go): increment the rolling 8-bit counter and
return the incremented value. -/
def nextZCLSeq (zclSeq : Nat) : Nat := (zclSeq + 1) % 256

/-- Model of `EncodeZCLClusterCommand` (zcl.go): frame control 0x01
(cluster-specific, client→server), fresh sequence number, command id,
payload. Returns the frame and the advanced sequence counter. -/
def encodeZCLClusterCommand (commandID : Nat) (payload : List Nat)
    (zclSeq : Nat) : List Nat × Nat :=
  let seq := nextZCLSeq zclSeq
  ((zclFrameTypeClusterSpecific ||| zclDirectionClientToServer) :: seq ::
    commandID :: payload, seq)

/-- Model of `BuildOnOffCommand` (zcl.go). -/
def buildOnOffCommand (cmd : Nat) (zclSeq : Nat) : List Nat × Nat :=
  encodeZCLClusterCommand cmd [] zclSeq

/-- Model of `BuildMoveToLevelCommand` (zcl.go): cluster-specific command 0x04
with payload `[level, transition_time as little-endian u16]`. -/
def buildMoveToLevelCommand (level transitionTime zclSeq : Nat) :
    List Nat × Nat :=
  encodeZCLClusterCommand zclCmdMoveToLevelWithOnOff
    [level, transitionTime &&& 0xFF, (transitionTime >>> 8) &&& 0xFF] zclSeq

/-- Model of `zclDataTypeLength` (zcl.go): the byte width of a ZCL data type,
given the bytes that follow the type byte (used by the octet-string
type 0x42 for its length prefix); -1 marks an unrecognised type. -/
def zclDataTypeLength (dataType : Nat) (data : List Nat) : Int :=
  match dataType with
  | 0x10 => 1
  | 0x20 => 1
  | 0x21 => 2
  | 0x22 => 3
  | 0x23 => 4
  | 0x28 => 1
  | 0x29 => 2
  | 0x30 => 1
  | 0x31 => 2
  | 0x42 =>
    match data with
    | [] => -1
    | len :: _ => 1 + (len : Int)
  | _ => -1

/-- Go map assignment on an association list: overwrite the existing
binding for the key or append a fresh one. -/
def mapInsert {κ α : Type} [DecidableEq κ] (k : κ) (v : α) :
    List (κ × α) → List (κ × α)
  | [] => [(k, v)]
  | (k', v') :: rest =>
    if k' = k then (k, v) :: rest else (k', v') :: mapInsert k v rest

/-- Go map lookup on an association list. -/
def mapLookup {κ α : Type} [DecidableEq κ] (k : κ) :
    List (κ × α) → Option α
  | [] => none
  | (k', v') :: rest => if k' = k then some v' else mapLookup k rest

/-- Go map deletion on an association list. -/
def mapErase {κ α : Type} [DecidableEq κ] (k : κ)
    (l : List (κ × α)) : List (κ × α) :=
  l.filter (fun p => p.1 ≠ k)

/-- The loop of `ParseReadAttributesResponse` (zcl.go), recursing on the
unconsumed suffix of the payload: the loop runs while at least 4 bytes
remain; it reads attribute id (little-endian u16) and status; a
non-zero status skips the entry; otherwise it reads the data type and
copies the type-defined number of value bytes, stopping at the first
unrecognised or truncated entry. -/
def parseRARLoop (data : List Nat) (acc : List (Nat × List Nat)) :
    List (Nat × List Nat) :=
  match data with
  | a0 :: a1 :: s :: t :: rest =>
    if s ≠ 0 then parseRARLoop (t :: rest) acc
    else
      let valueLen := zclDataTypeLength t rest
      if valueLen ≤ 0 ∨ (rest.length : Int) < valueLen then acc
      else
        parseRARLoop (rest.drop valueLen.toNat)
          (mapInsert (a0 + 256 * a1) (rest.take valueLen.toNat) acc)
  | _ => acc
  termination_by data.length
  decreasing_by
  · simp
  · simp
    omega

/-- Model of `ParseReadAttributesResponse` (zcl.go): extract `attr_id → value
bytes` from a Read Attributes Response payload. -/
def parseReadAttributesResponse (data : List Nat) : List (Nat × List Nat) :=
  parseRARLoop data []

/-! ## Controller session (controller.go)

The device table is the association-list image of the Go map
`devices: map[string]*KnownDevice`; `SetDeviceState` and
`handleTrustCenterJoin` are embedded as pure functions returning the
updated table together with the emitted unicast calls / discovery
events. EZSP `SendUnicast` outcomes are scripted as a list of booleans
(true = SUCCESS status). -/

/-- A Go dynamic value as stored in `device.DeviceState` maps and state
inputs: a string, a numeric value (Go `float64`, `int` and `json.Number`
inputs all coerce through `uint8` and are modelled by one integral
constructor), or a boolean (standing for any non-string, non-numeric
value). -/
inductive GoVal where
  | vstr (s : String)
  | vnum (n : Int)
  | vbool (b : Bool)
  deriving Repr, DecidableEq

/-- Model of `strings.ToUpper` as the Go code applies it to ASCII state tokens. -/
def goToUpper (s : String) : String := String.mk (s.data.map Char.toUpper)

/-- Model of `KnownDevice` (controller.go): a Zigbee device tracked in the
controller table. -/
structure KnownDevice where
  ieee : List Nat
  nodeID : Nat
  deviceType : String
  endpoint : Nat
  state : List (String × GoVal)
  deriving Repr, DecidableEq

/-- The default device type assigned on join (device.DeviceTypeLight). -/
def deviceTypeLight : String := "light"

/-- The controller error kinds surfaced by `SetDeviceState`
(device/errors.go): `device not found`, `validation error`, and a
send-path failure wrapping the EZSP error. -/
inductive CtrlError where
  | notFound
  | validation
  | sendFailed
  deriving Repr, DecidableEq

/-- One `ezsp.SendUnicast` invocation as issued by the controller. -/
structure UnicastCall where
  nodeID : Nat
  profileID : Nat
  clusterID : Nat
  srcEndpoint : Nat
  dstEndpoint : Nat
  payload : List Nat
  deriving Repr, DecidableEq

/-- Discovery event types (`device_joined` / `device_left`). -/
inductive DiscoveryEventType where
  | deviceJoined
  | deviceLeft
  deriving Repr, DecidableEq

/-- A published discovery event, reduced to its type and device id. -/
structure DiscoveryEvent where
  type : DiscoveryEventType
  deviceID : String
  deriving Repr, DecidableEq

/-- Lower-case hex digit, as produced by Go's `%02x` verb. -/
def hexDigit (n : Nat) : Char :=
  if n < 10 then Char.ofNat (48 + n) else Char.ofNat (87 + n)

/-- A byte as two lower-case hex digits (`%02x`). -/
def hexByte (b : Nat) : String :=
  String.mk [hexDigit ((b / 16) % 16), hexDigit (b % 16)]

/-- Model of `formatIEEE` (controller.go): the 8 address bytes rendered
byte-reversed, colon-separated, lower-case hex. -/
def formatIEEE (addr : List Nat) : String :=
  String.intercalate ":" (addr.reverse.map hexByte)

/-- Model of `handleTrustCenterJoin` (controller.go): parse
`node_id (u16 LE), ieee (8 bytes), status (u8)`; status 3 removes the
device keyed by the formatted IEEE and publishes `device_left`; any
other status stores a fresh `KnownDevice` (type light, endpoint 1) under
that key and publishes `device_joined`. -/
def handleTrustCenterJoin (devices : List (String × KnownDevice))
    (data : List Nat) :
    List (String × KnownDevice) × List DiscoveryEvent :=
  if data.length < 11 then (devices, [])
  else
    let nodeID := data.getD 0 0 + 256 * data.getD 1 0
    let ieee := (data.drop 2).take 8
    let status := data.getD 10 0
    let ieeeStr := formatIEEE ieee
    if status = 3 then
      (mapErase ieeeStr devices, [⟨.deviceLeft, ieeeStr⟩])
    else
      let kd : KnownDevice := ⟨ieee, nodeID, deviceTypeLight, 1, []⟩
      (mapInsert ieeeStr kd devices, [⟨.deviceJoined, ieeeStr⟩])

/-- The `state` key handling of `SetDeviceState` (controller.go lines
435-457), threaded explicitly: on success it yields the updated device,
table, ZCL counter, remaining send script and the emitted call; on
failure the error together with the counter value and any call already
made. A non-string value fails the inner type assertion and is skipped. -/
def setStateKey (devices : List (String × KnownDevice)) (id : String)
    (kd : KnownDevice) (input : List (String × GoVal)) (zclSeq : Nat)
    (sendResults : List Bool) :
    Except (CtrlError × Nat × List UnicastCall)
      (KnownDevice × List (String × KnownDevice) × Nat × List Bool ×
        List UnicastCall) :=
  match mapLookup "state" input with
  | some (GoVal.vstr strVal) =>
    let up := goToUpper strVal
    let cmd? : Option Nat :=
      if up = "ON" then some zclCmdOn
      else if up = "OFF" then some zclCmdOff
      else if up = "TOGGLE" then some zclCmdToggle
      else none
    match cmd? with
    | none => .error (.validation, zclSeq, [])
    | some cmd =>
      let r := buildOnOffCommand cmd zclSeq
      let call : UnicastCall :=
        ⟨kd.nodeID, zclProfileHA, zclClusterOnOff, 1, kd.endpoint, r.1⟩
      match sendResults with
      | ok :: restResults =>
        if ok then
          let kd1 :=
            { kd with state := mapInsert "state" (GoVal.vstr up) kd.state }
          .ok (kd1, mapInsert id kd1 devices, r.2, restResults, [call])
        else .error (.sendFailed, r.2, [call])
      | [] => .error (.sendFailed, r.2, [call])
  | some _ => .ok (kd, devices, zclSeq, sendResults, [])
  | none => .ok (kd, devices, zclSeq, sendResults, [])

/-- Model of `SetDeviceState` (controller.go): look the device up, run the
`state` (On/Off) block then the `brightness` (Level Control) block, and
return a snapshot of the device's state map together with the updated
table, the ZCL counter and the unicast calls issued in order. -/
def setDeviceState (devices : List (String × KnownDevice)) (id : String)
    (input : List (String × GoVal)) (zclSeq : Nat)
    (sendResults : List Bool) :
    Except CtrlError (List (String × GoVal)) ×
      List (String × KnownDevice) × Nat × List UnicastCall :=
  match mapLookup id devices with
  | none => (.error .notFound, devices, zclSeq, [])
  | some kd =>
    match setStateKey devices id kd input zclSeq sendResults with
    | .error (e, sq, calls) => (.error e, devices, sq, calls)
    | .ok (kd1, devices1, zclSeq1, results1, calls1) =>
      match mapLookup "brightness" input with
      | some (GoVal.vnum n) =>
        let level := (n % 256).toNat
        let r := buildMoveToLevelCommand level 10 zclSeq1
        let call : UnicastCall :=
          ⟨kd1.nodeID, zclProfileHA, zclClusterLevelControl, 1,
            kd1.endpoint, r.1⟩
        match results1 with
        | ok :: _ =>
          if ok then
            let kd2 := { kd1 with
              state := mapInsert "brightness" (GoVal.vnum level) kd1.state }
            (.ok kd2.state, mapInsert id kd2 devices1, r.2,
              calls1 ++ [call])
          else (.error .sendFailed, devices1, r.2, calls1 ++ [call])
        | [] => (.error .sendFailed, devices1, r.2, calls1 ++ [call])
      | some (GoVal.vstr _) => (.error .validation, devices1, zclSeq1, calls1)
      | some (GoVal.vbool _) => (.error .validation, devices1, zclSeq1, calls1)
      | none => (.ok kd1.state, devices1, zclSeq1, calls1)

/-! ## Reference CRC definition from the spec's words

The spec (§4.2.2) describes the CRC as "CRC-CCITT, initial value 0xFFFF,
polynomial 0x1021, MSB-first". The following definitions spell that out
as a serial, bit-at-a-time shift register fed the input bits MSB-first,
to be compared with the byte-at-a-time `crcCCITT` from the source. -/

/-- One serial CRC shift: feed a single input bit; when the register's
top bit XOR the input bit is set, shift and XOR in the polynomial
0x1021, otherwise just shift. -/
def crcSpecStep (c : Nat) (bit : Bool) : Nat :=
  if (c.testBit 15).xor bit then ((c <<< 1) % 2 ^ 16) ^^^ 0x1021
  else (c <<< 1) % 2 ^ 16

/-- The `w` low bits of `m`, most significant first. -/
def natBitsMSB (m : Nat) : Nat → List Bool
  | 0 => []
  | w + 1 => m.testBit w :: natBitsMSB m w

/-- The eight bits of a byte, most significant first. -/
def byteBitsMSB (b : Nat) : List Bool := natBitsMSB b 8

/-- Reference CRC following the spec's words: start from 0xFFFF and feed
every bit of the input MSB-first through the serial shift register. -/
def crcCCITTSpec (data : List Nat) : Nat :=
  data.foldl (fun c b => (byteBitsMSB b).foldl crcSpecStep c) 0xFFFF

/-! ## Helper lemmas about stuffing -/

theorem ashUnstuffAux_ashStuff (l : List Nat) :
    ashUnstuffAux false (ashStuff l) = l := by
  induction l with
  | nil => rfl
  | cons b rest ih =>
    by_cases h : isAshReserved b = true
    · have hxor : b ^^^ ashFlipBit ^^^ ashFlipBit = b := by
        rw [Nat.xor_assoc, Nat.xor_self, Nat.xor_zero]
      simp [ashStuff, h, ashUnstuffAux, hxor, ih]
    · have hne : b ≠ ashEscapeByte := by
        intro e
        subst e
        simp [isAshReserved] at h
      simp [ashStuff, h, ashUnstuffAux, hne, ih]

/-! ## Helper lemmas about association-list maps -/

theorem mapLookup_mapInsert_self {κ α : Type} [DecidableEq κ]
    (k : κ) (v : α) (l : List (κ × α)) :
    mapLookup k (mapInsert k v l) = some v := by
  induction l with
  | nil => simp [mapInsert, mapLookup]
  | cons p rest ih =>
    by_cases h : p.1 = k
    · simp [mapInsert, mapLookup, h]
    · simp [mapInsert, mapLookup, h, ih]

theorem mapLookup_mapInsert_ne {κ α : Type} [DecidableEq κ]
    (k k' : κ) (v : α) (l : List (κ × α)) (h : k' ≠ k) :
    mapLookup k (mapInsert k' v l) = mapLookup k l := by
  induction l with
  | nil => simp [mapInsert, mapLookup, h]
  | cons p rest ih =>
    by_cases hp : p.1 = k'
    · simp [mapInsert, mapLookup, hp, h]
    · simp [mapInsert, mapLookup, hp, ih]

theorem mapLookup_mapErase {κ α : Type} [DecidableEq κ]
    (k : κ) (l : List (κ × α)) :
    mapLookup k (mapErase k l) = none := by
  induction l with
  | nil => simp [mapErase, mapLookup]
  | cons p rest ih =>
    by_cases h : p.1 = k
    · simpa [mapErase, List.filter, h] using ih
    · simpa [mapErase, List.filter, mapLookup, h] using ih

/-! ## Helper lemmas about the CRC -/

theorem shiftLeft_xor_distrib (x y n : Nat) :
    (x ^^^ y) <<< n = (x <<< n) ^^^ (y <<< n) := by
  apply Nat.eq_of_testBit_eq
  intro i
  simp only [Nat.testBit_shiftLeft, Nat.testBit_xor]
  cases h : decide (n ≤ i) <;> simp [h]

theorem mod_two_pow_xor_distrib (x y n : Nat) :
    (x ^^^ y) % 2 ^ n = (x % 2 ^ n) ^^^ (y % 2 ^ n) := by
  apply Nat.eq_of_testBit_eq
  intro i
  simp only [Nat.testBit_mod_two_pow, Nat.testBit_xor]
  cases h : decide (i < n) <;> simp [h]

/-- Bits strictly below position 15 commute out of `crcStep` as a plain
shift. -/
theorem crcStep_xor_low (x y : Nat) (hy : y < 2 ^ 15) :
    crcStep (x ^^^ y) = crcStep x ^^^ ((y <<< 1) % 2 ^ 16) := by
  have hybit : y.testBit 15 = false := Nat.testBit_lt_two_pow hy
  have ht : (x ^^^ y).testBit 15 = x.testBit 15 := by
    rw [Nat.testBit_xor, hybit, Bool.xor_false]
  have key : ∀ A B : Nat, (A ^^^ B) ^^^ 0x1021 = (A ^^^ 0x1021) ^^^ B := by
    intro A B
    rw [Nat.xor_assoc, Nat.xor_comm B 0x1021, ← Nat.xor_assoc]
  unfold crcStep
  rw [ht, shiftLeft_xor_distrib, mod_two_pow_xor_distrib]
  cases hx : x.testBit 15 <;> simp [hx, key]

/-- Injecting a single bit at position 15 turns `crcStep` into the
spec's serial shift step. -/
theorem crcStep_topbit (x : Nat) (bit : Bool) :
    crcStep (x ^^^ (bit.toNat <<< 15)) = crcSpecStep x bit := by
  cases bit
  · simp [crcStep, crcSpecStep]
  · have ht : (x ^^^ Bool.true.toNat <<< 15).testBit 15 = !x.testBit 15 := by
      rw [Nat.testBit_xor]
      norm_num
    have hs : ((x ^^^ Bool.true.toNat <<< 15) <<< 1) % 2 ^ 16 =
        (x <<< 1) % 2 ^ 16 := by
      rw [shiftLeft_xor_distrib, mod_two_pow_xor_distrib]
      have h0 : ((Bool.true.toNat <<< 15) <<< 1) % 2 ^ 16 = 0 := by decide
      rw [h0, Nat.xor_zero]
    unfold crcStep crcSpecStep
    rw [ht, hs, Bool.xor_true]

/-- Splitting the top bit off a `k+1`-bit value aligned so that its most
significant bit lands at position 15. -/
theorem shiftLeft_split_topbit (k m : Nat) (hk : k ≤ 15) (hm : m < 2 ^ (k + 1)) :
    m <<< (15 - k) =
      ((m.testBit k).toNat <<< 15) ^^^ ((m % 2 ^ k) <<< (15 - k)) := by
  apply Nat.eq_of_testBit_eq
  intro i
  simp only [Nat.testBit_shiftLeft, Nat.testBit_xor, Nat.testBit_mod_two_pow]
  rcases Nat.lt_or_ge i (15 - k) with h1 | h1
  · have e1 : decide (15 - k ≤ i) = false := by simp; omega
    have e2 : decide (15 ≤ i) = false := by simp; omega
    simp only [e1, e2, Bool.false_and, Bool.false_xor]
  rcases Nat.lt_or_ge i 15 with h2 | h2
  · have e1 : decide (15 - k ≤ i) = true := by simp; omega
    have e2 : decide (15 ≤ i) = false := by simp; omega
    have e3 : decide (i - (15 - k) < k) = true := by simp; omega
    simp only [e1, e2, e3, Bool.true_and, Bool.false_and, Bool.false_xor]
  rcases Nat.eq_or_lt_of_le h2 with h3 | h3
  · subst h3
    have e1 : decide (15 - k ≤ 15) = true := by simp
    have e2 : decide (15 ≤ 15) = true := by simp
    have e4 : 15 - (15 - k) = k := by omega
    have e3 : decide (15 - (15 - k) < k) = false := by rw [e4]; simp
    have e5 : (15 : Nat) - 15 = 0 := by norm_num
    simp only [e1, e2, e3, e4, e5, Bool.true_and, Bool.false_and,
      Bool.and_false, Bool.xor_false]
    cases hb : m.testBit k <;> simp
  · have e1 : decide (15 - k ≤ i) = true := by simp; omega
    have e2 : decide (15 ≤ i) = true := by simp; omega
    have e3 : decide (i - (15 - k) < k) = false := by simp; omega
    have e4 : m.testBit (i - (15 - k)) = false := by
      apply Nat.testBit_lt_two_pow
      calc m < 2 ^ (k + 1) := hm
        _ ≤ 2 ^ (i - (15 - k)) := Nat.pow_le_pow_right (by norm_num) (by omega)
    have e5 : (m.testBit k).toNat.testBit (i - 15) = false := by
      apply Nat.testBit_lt_two_pow
      calc (m.testBit k).toNat < 2 ^ 1 := by
            cases m.testBit k <;> norm_num
        _ ≤ 2 ^ (i - 15) := Nat.pow_le_pow_right (by norm_num) (by omega)
    simp only [e1, e2, e3, e4, e5, Bool.true_and, Bool.false_and,
      Bool.and_false, Bool.xor_false]

/-- The first `w` bits of `m % 2 ^ k` agree with those of `m` when
`w ≤ k`. -/
theorem natBitsMSB_mod (m k : Nat) :
    ∀ w, w ≤ k → natBitsMSB (m % 2 ^ k) w = natBitsMSB m w := by
  intro w
  induction w with
  | zero => intro _; rfl
  | succ w ihw =>
    intro hw
    have hbit : (m % 2 ^ k).testBit w = m.testBit w := by
      rw [Nat.testBit_mod_two_pow]
      have : decide (w < k) = true := by simp; omega
      rw [this, Bool.true_and]
    simp [natBitsMSB, hbit, ihw (by omega)]

/-- Running `k` iterations of the code's CRC loop on an accumulator with
a `k`-bit value XORed in just below the top equals feeding those `k`
bits MSB-first through the spec's serial shift register. -/
theorem crcSteps_eq_specBits :
    ∀ (k : Nat), k ≤ 8 → ∀ (c m : Nat), m < 2 ^ k →
      crcStep^[k] (c ^^^ (m <<< (16 - k))) =
        (natBitsMSB m k).foldl crcSpecStep c := by
  intro k
  induction k with
  | zero =>
    intro _ c m hm
    have hm0 : m = 0 := by omega
    subst hm0
    simp [natBitsMSB]
  | succ k ih =>
    intro hk c m hm
    have h16 : 16 - (k + 1) = 15 - k := by omega
    rw [h16, Function.iterate_succ_apply,
      shiftLeft_split_topbit k m (by omega) hm, ← Nat.xor_assoc]
    have hlow : (m % 2 ^ k) <<< (15 - k) < 2 ^ 15 := by
      rw [Nat.shiftLeft_eq]
      calc (m % 2 ^ k) * 2 ^ (15 - k) < 2 ^ k * 2 ^ (15 - k) :=
            (Nat.mul_lt_mul_right (by positivity)).mpr (Nat.mod_lt m (by positivity))
        _ = 2 ^ 15 := by rw [← pow_add]; congr 1; omega
    rw [crcStep_xor_low _ _ hlow, crcStep_topbit]
    have hsh : (((m % 2 ^ k) <<< (15 - k)) <<< 1) % 2 ^ 16 =
        (m % 2 ^ k) <<< (16 - k) := by
      rw [← Nat.shiftLeft_add]
      have h1 : 15 - k + 1 = 16 - k := by omega
      rw [h1]
      apply Nat.mod_eq_of_lt
      rw [Nat.shiftLeft_eq]
      calc (m % 2 ^ k) * 2 ^ (16 - k) < 2 ^ k * 2 ^ (16 - k) :=
            (Nat.mul_lt_mul_right (by positivity)).mpr (Nat.mod_lt m (by positivity))
        _ = 2 ^ 16 := by rw [← pow_add]; congr 1; omega
    rw [hsh]
    have hrec := ih (by omega) (crcSpecStep c (m.testBit k)) (m % 2 ^ k)
      (Nat.mod_lt m (by positivity))
    rw [hrec, natBitsMSB_mod m k k (le_refl k)]
    rfl

/-- The code's per-byte CRC update equals the spec's serial register fed
the byte's eight bits MSB-first. -/
theorem crcByte_eq_spec (c b : Nat) (hb : b < 256) :
    crcByte c b = (byteBitsMSB b).foldl crcSpecStep c := by
  unfold crcByte byteBitsMSB
  have h1 : (b <<< 8) % 2 ^ 16 = b <<< 8 := by
    apply Nat.mod_eq_of_lt
    rw [Nat.shiftLeft_eq]
    calc b * 2 ^ 8 < 256 * 2 ^ 8 :=
          (Nat.mul_lt_mul_right (by norm_num)).mpr hb
      _ = 2 ^ 16 := by norm_num
  rw [h1]
  have h2 : b <<< 8 = b <<< (16 - 8) := by norm_num
  rw [h2]
  exact crcSteps_eq_specBits 8 (by norm_num) c b (by omega)

end Homai

namespace Homai

/-- C3 (amended): `ashSeqLessThan a b` is true iff `(b - a) mod 8 ∈
{1,2,3,4}`; for 3-bit values the XOR of `seq_lt(a,b)`, `seq_lt(b,a)` and
`a == b` is true exactly when `(b - a) mod 8 ≠ 4` (at circular distance 4
both comparisons hold simultaneously); and `seq_lt(7,0)` is true,
`seq_lt(0,4)` is true, `seq_lt(0,5)` is false. -/
theorem ashSeqLessThan_spec :
    (∀ a < 8, ∀ b < 8,
        (ashSeqLessThan a b = true ↔
          ((b + 8 - a) % 8 = 1 ∨ (b + 8 - a) % 8 = 2 ∨
            (b + 8 - a) % 8 = 3 ∨ (b + 8 - a) % 8 = 4)) ∧
        ((ashSeqLessThan a b).xor ((ashSeqLessThan b a).xor (a == b)) =
          !decide ((b + 8 - a) % 8 = 4))) ∧
    ashSeqLessThan 7 0 = true ∧ ashSeqLessThan 0 4 = true ∧
      ashSeqLessThan 0 5 = false := by
  decide

/-- C3 witness: the amended characterisation instantiated at a = 3, b = 5. -/
theorem ashSeqLessThan_spec_witness :
    ashSeqLessThan 3 5 = true ↔
      ((5 + 8 - 3) % 8 = 1 ∨ (5 + 8 - 3) % 8 = 2 ∨
        (5 + 8 - 3) % 8 = 3 ∨ (5 + 8 - 3) % 8 = 4) :=
  (ashSeqLessThan_spec.1 3 (by decide) 5 (by decide)).1

/-- C3 counterexample: at a = 0, b = 4 both `ashSeqLessThan 0 4` and
`ashSeqLessThan 4 0` are true while 0 ≠ 4, so the claimed
"exactly one of the three holds" (equivalently, that the three-way XOR is
a tautology) is false. -/
theorem ashSeqLessThan_xor_counterexample :
    ashSeqLessThan 0 4 = true ∧ ashSeqLessThan 4 0 = true ∧ (0 : Nat) ≠ 4 ∧
      (ashSeqLessThan 0 4).xor
        ((ashSeqLessThan 4 0).xor ((0 : Nat) == 4)) = false := by
  decide

/-- C4: for every byte sequence `b`, `ashUnstuff (ashStuff b) = b` —
unstuffing inverts the reserved-byte escaping substitution. -/
theorem ashUnstuff_ashStuff_roundtrip :
    ∀ b : List Nat, ashUnstuff (ashStuff b) = b := by
  intro b
  exact ashUnstuffAux_ashStuff b

/-- C5 counterexample: on the empty input `crcCCITT` returns its initial
value 0xFFFF, not the claimed 0x1D0F. -/
theorem crcCCITT_empty_counterexample :
    crcCCITT [] = 0xFFFF ∧ crcCCITT [] ≠ 0x1D0F := by
  decide

/-- C5 (amended): `crcCCITT` implements CRC-CCITT with initial value
0xFFFF and polynomial 0x1021 processed MSB-first — it agrees with the
serial bit-at-a-time reference register on every byte string — and on
the empty input it returns the initial value 0xFFFF; the value 0x1D0F
arises for the input of two zero bytes. -/
theorem crcCCITT_spec :
    (∀ data : List Nat, (∀ x ∈ data, x < 256) →
      crcCCITT data = crcCCITTSpec data) ∧
    crcCCITT [] = 0xFFFF ∧ crcCCITT [0x00, 0x00] = 0x1D0F := by
  have main : ∀ (data : List Nat), (∀ x ∈ data, x < 256) → ∀ c : Nat,
      data.foldl crcByte c =
        data.foldl (fun c b => (byteBitsMSB b).foldl crcSpecStep c) c := by
    intro data
    induction data with
    | nil => intro _ c; rfl
    | cons b rest ih =>
      intro h c
      simp only [List.foldl_cons]
      rw [crcByte_eq_spec c b (h b (by simp))]
      exact ih (fun x hx => h x (by simp [hx])) _
  exact ⟨fun data h => main data h 0xFFFF, by decide, by decide⟩

/-- C5 witness: the refinement instantiated on the concrete byte string
[0x12, 0x34]. -/
theorem crcCCITT_spec_witness :
    crcCCITT [0x12, 0x34] = crcCCITTSpec [0x12, 0x34] :=
  crcCCITT_spec.1 [0x12, 0x34] (by decide)

/-! ## Stuffed output structure (C10 machinery) -/

theorem ashStuff_no_reserved :
    ∀ (b : List Nat) (x : Nat), x ∈ ashStuff b →
      x ∉ ([0x7E, 0x11, 0x13, 0x18, 0x1A] : List Nat) := by
  intro b
  induction b with
  | nil => intro x hx; simp [ashStuff] at hx
  | cons a rest ih =>
    intro x hx
    by_cases h : isAshReserved a = true
    · simp only [ashStuff, if_pos h, List.mem_cons] at hx
      rcases hx with rfl | rfl | hx
      · decide
      · have ha : ((((a = 0x7E ∨ a = 0x7D) ∨ a = 0x11) ∨ a = 0x13) ∨
            a = 0x18) ∨ a = 0x1A := by
          simpa [isAshReserved, ashFlagByte, ashEscapeByte, ashXON, ashXOFF,
            ashSubstitute, ashCancelByte] using h
        rcases ha with ((((rfl | rfl) | rfl) | rfl) | rfl) | rfl <;> decide
      · exact ih x hx
    · simp only [ashStuff, if_neg h, List.mem_cons] at hx
      rcases hx with rfl | hx
      · intro hmem
        have hm : x = 0x7E ∨ x = 0x11 ∨ x = 0x13 ∨ x = 0x18 ∨ x = 0x1A := by
          simpa using hmem
        rcases hm with rfl | rfl | rfl | rfl | rfl <;> exact h (by decide)
      · exact ih x hx

theorem ashStuff_escape_followed :
    ∀ (b : List Nat) (i : Nat), (ashStuff b).get? i = some 0x7D →
      ∃ r, isAshReserved r = true ∧
        (ashStuff b).get? (i + 1) = some (r ^^^ 0x20) := by
  intro b
  induction b with
  | nil => intro i hi; simp [ashStuff] at hi
  | cons a rest ih =>
    intro i hi
    by_cases h : isAshReserved a = true
    · rw [ashStuff, if_pos h] at hi ⊢
      rcases i with _ | _ | n
      · exact ⟨a, h, rfl⟩
      · exfalso
        have ha : ((((a = 0x7E ∨ a = 0x7D) ∨ a = 0x11) ∨ a = 0x13) ∨
            a = 0x18) ∨ a = 0x1A := by
          simpa [isAshReserved, ashFlagByte, ashEscapeByte, ashXON, ashXOFF,
            ashSubstitute, ashCancelByte] using h
        rcases ha with ((((rfl | rfl) | rfl) | rfl) | rfl) | rfl <;>
          simp [ashFlipBit] at hi
      · exact ih n hi
    · rw [ashStuff, if_neg h] at hi ⊢
      rcases i with _ | n
      · have ha : a = 0x7D := by simpa using hi
        exact absurd (by rw [ha]; decide) h
      · exact ih n hi

theorem buildDataFrame_single_flag (control : Nat) (payload : List Nat) :
    (buildDataFrame control payload).count 0x7E = 1 ∧
      (buildDataFrame control payload).getLast? = some 0x7E := by
  unfold buildDataFrame
  constructor
  · rw [List.count_append]
    have h0 : ∀ raw : List Nat, (ashStuff raw).count 0x7E = 0 := by
      intro raw
      apply List.count_eq_zero.mpr
      intro hmem
      exact ashStuff_no_reserved raw 0x7E hmem (by decide)
    rw [h0]
    decide
  · rw [List.getLast?_concat]
    rfl

/-- C10: the output of `ashStuff` never contains the flag byte 0x7E nor
any of the other unescaped reserved bytes 0x11, 0x13, 0x18, 0x1A; every
occurrence of the escape byte 0x7D in it is immediately followed by a
reserved byte XOR 0x20; and consequently the flag byte a `buildDataFrame`
frame ends with is the only flag byte in the frame. -/
theorem ashStuff_reserved_free :
    (∀ (b : List Nat) (x : Nat), x ∈ ashStuff b →
      x ∉ ([0x7E, 0x11, 0x13, 0x18, 0x1A] : List Nat)) ∧
    (∀ (b : List Nat) (i : Nat), (ashStuff b).get? i = some 0x7D →
      ∃ r, isAshReserved r = true ∧
        (ashStuff b).get? (i + 1) = some (r ^^^ 0x20)) ∧
    (∀ (control : Nat) (payload : List Nat),
      (buildDataFrame control payload).count 0x7E = 1 ∧
        (buildDataFrame control payload).getLast? = some 0x7E) :=
  ⟨ashStuff_no_reserved, ashStuff_escape_followed, buildDataFrame_single_flag⟩

/-- C2: an in-sequence DATA frame (frm_num equal to the expected receive
sequence) advances the expected sequence by one modulo 8, is ACKed with
the advanced value and its payload (control byte stripped) is delivered;
any other frm_num elicits a NAK carrying the unchanged expected sequence
and delivers nothing; in particular with expected_recv_seq = 3 a DATA
frame with frm_num = 5 produces exactly a NAK with ack_num = 3. -/
theorem handleData_spec :
    (∀ (st : AshState) (control : Nat) (rest : List Nat),
      (control >>> 4) &&& 0x07 = st.recvSeq →
        handleData st (control :: rest) =
          (⟨(st.recvSeq + 1) &&& 0x07,
            st.pending.filter (fun p => !ashSeqLessThan p.1 (control &&& 0x07))⟩,
           [.txACK ((st.recvSeq + 1) &&& 0x07), .deliver rest])) ∧
    (∀ (st : AshState) (control : Nat) (rest : List Nat),
      (control >>> 4) &&& 0x07 ≠ st.recvSeq →
        handleData st (control :: rest) =
          (⟨st.recvSeq,
            st.pending.filter (fun p => !ashSeqLessThan p.1 (control &&& 0x07))⟩,
           [.txNAK st.recvSeq])) ∧
    handleData ⟨3, []⟩ (0x50 :: [0xAA, 0xBB]) = (⟨3, []⟩, [.txNAK 3]) := by
  refine ⟨?_, ?_, by decide⟩
  · intro st control rest h
    simp [handleData, h]
  · intro st control rest h
    simp [handleData, h]

/-- C2 witness: an in-sequence frame (frm_num = 2 against
expected_recv_seq = 2) instantiating the ACK-and-deliver branch. -/
theorem handleData_spec_witness :
    handleData ⟨2, []⟩ (0x20 :: [0x42]) =
      (⟨(2 + 1) &&& 0x07,
        List.filter (fun p => !ashSeqLessThan p.1 (0x20 &&& 0x07))
          ([] : List (Nat × List Nat))⟩,
       [.txACK ((2 + 1) &&& 0x07), .deliver [0x42]]) :=
  handleData_spec.1 ⟨2, []⟩ 0x20 [0x42] (by decide)

/-- C1: starting in legacy format, when the first `version(13)` command
receives a 1-byte response carrying an NCP version of at least 8,
`NegotiateVersion` resends the version command with the NCP's version in
the extended wire format (FC_lo = 0x01), performs no ASH reset between
the two attempts, and on a response of at least 4 bytes returns
protocol_version = byte 0, stack_type = byte 1 and stack_version =
bytes 2-3 little-endian, ending with the extended format active. -/
theorem negotiateVersion_retry_spec :
    ∀ (st : EzspState) (v b0 b1 b2 b3 : Nat) (rest : List Nat),
      st.extendedFormat = false → 8 ≤ v →
      negotiateVersion st [[v], b0 :: b1 :: b2 :: b3 :: rest] =
        (Except.ok (b0, b1, b2 + 256 * b3), ⟨2, true⟩,
          [EzspAction.sendFrame [0, 0x00, 0x00, 13],
           EzspAction.sendFrame [1, 0x01, 0x00, 0x00, 0x00, v]]) ∧
      EzspAction.ashReset ∉
        (negotiateVersion st [[v], b0 :: b1 :: b2 :: b3 :: rest]).2.2 := by
  intro st v b0 b1 b2 b3 rest hext hv
  have hlen : ¬(rest.length + 1 + 1 + 1 + 1 < 4) := by omega
  have heq : negotiateVersion st [[v], b0 :: b1 :: b2 :: b3 :: rest] =
      (Except.ok (b0, b1, b2 + 256 * b3), ⟨2, true⟩,
        [EzspAction.sendFrame [0, 0x00, 0x00, 13],
         EzspAction.sendFrame [1, 0x01, 0x00, 0x00, 0x00, v]]) := by
    by_cases hb : 8 ≤ b0 <;>
      simp [negotiateVersion, sendCommand, buildEzspFrame,
        parseVersionResponse, ezspVersionFrameID, ezspProtocolVersion,
        hext, hv, hb, hlen]
  refine ⟨heq, ?_⟩
  rw [heq]
  simp

/-- C1 witness: the negotiation run on the spec's concrete exchange —
NCP answers `[0x08]`, the retry answers `0x08 0x02 0x5A 0x00` — yields
protocol 8, stack type 2, stack version 0x005A. -/
theorem negotiateVersion_retry_spec_witness :
    negotiateVersion ⟨5, false⟩ [[8], [0x08, 0x02, 0x5A, 0x00]] =
      (Except.ok (0x08, 0x02, 0x5A + 256 * 0x00), ⟨2, true⟩,
        [EzspAction.sendFrame [0, 0x00, 0x00, 13],
         EzspAction.sendFrame [1, 0x01, 0x00, 0x00, 0x00, 8]]) ∧
    EzspAction.ashReset ∉
      (negotiateVersion ⟨5, false⟩ [[8], [0x08, 0x02, 0x5A, 0x00]]).2.2 :=
  negotiateVersion_retry_spec ⟨5, false⟩ 8 0x08 0x02 0x5A 0x00 [] rfl
    (by decide)

/-- C9: in `ParseReadAttributesResponse`, an entry with non-zero status
contributes no value and consumes exactly its 3 header bytes; a
successful entry whose recognised data type has width `w` consumes
exactly `w` value bytes and binds them to the attribute id; the first
unrecognised or truncated entry terminates parsing with the entries
decoded so far; the recognised widths are 1, 2, 3 or 4 bytes, or one
length byte plus that many for octet strings (0x42); and the payload
`00 00 00 10 01` yields exactly `{0x0000 → [0x01]}`. -/
theorem parseReadAttributesResponse_spec :
    (∀ (a0 a1 s t : Nat) (rest : List Nat) (acc : List (Nat × List Nat)),
      s ≠ 0 →
      parseRARLoop (a0 :: a1 :: s :: t :: rest) acc =
        parseRARLoop (t :: rest) acc) ∧
    (∀ (a0 a1 t : Nat) (v rest : List Nat) (acc : List (Nat × List Nat)),
      zclDataTypeLength t (v ++ rest) = (v.length : Int) → 0 < v.length →
      parseRARLoop (a0 :: a1 :: 0 :: t :: (v ++ rest)) acc =
        parseRARLoop rest (mapInsert (a0 + 256 * a1) v acc)) ∧
    (∀ (a0 a1 t : Nat) (rest : List Nat) (acc : List (Nat × List Nat)),
      (zclDataTypeLength t rest ≤ 0 ∨
        (rest.length : Int) < zclDataTypeLength t rest) →
      parseRARLoop (a0 :: a1 :: 0 :: t :: rest) acc = acc) ∧
    ((∀ d : List Nat,
        zclDataTypeLength 0x10 d = 1 ∧ zclDataTypeLength 0x20 d = 1 ∧
        zclDataTypeLength 0x28 d = 1 ∧ zclDataTypeLength 0x30 d = 1 ∧
        zclDataTypeLength 0x21 d = 2 ∧ zclDataTypeLength 0x29 d = 2 ∧
        zclDataTypeLength 0x31 d = 2 ∧ zclDataTypeLength 0x22 d = 3 ∧
        zclDataTypeLength 0x23 d = 4) ∧
      (∀ (len : Nat) (r : List Nat),
        zclDataTypeLength 0x42 (len :: r) = 1 + (len : Int))) ∧
    parseReadAttributesResponse [0x00, 0x00, 0x00, 0x10, 0x01] =
      [(0x0000, [0x01])] := by
  refine ⟨?_, ?_, ?_, ⟨fun d => ⟨rfl, rfl, rfl, rfl, rfl, rfl, rfl, rfl, rfl⟩,
    fun len r => rfl⟩, ?_⟩
  · intro a0 a1 s t rest acc h
    rw [parseRARLoop]
    simp [h]
  · intro a0 a1 t v rest acc h hv
    rw [parseRARLoop]
    have hc : ¬(zclDataTypeLength t (v ++ rest) ≤ 0 ∨
        ((v ++ rest).length : Int) < zclDataTypeLength t (v ++ rest)) := by
      rw [h]
      push_neg
      constructor
      · exact_mod_cast hv
      · rw [List.length_append]
        push_cast
        omega
    simp only [ne_eq, not_true_eq_false, if_false, ite_false,
      decide_not, if_neg hc]
    rw [h]
    simp [List.take_left, List.drop_left, Int.toNat_natCast]
  · intro a0 a1 t rest acc h
    rw [parseRARLoop]
    simp only [ne_eq, not_true_eq_false, if_false, ite_false, if_pos h]
  · simp [parseReadAttributesResponse, parseRARLoop, zclDataTypeLength,
      mapInsert]

/-- C9 witness: the skip-and-decode equations instantiated on the
spec's concrete payload, decoding attribute 0 with boolean value 1. -/
theorem parseReadAttributesResponse_spec_witness :
    parseRARLoop (0x00 :: 0x00 :: 0 :: 0x10 :: ([0x01] ++ [])) [] =
      parseRARLoop [] (mapInsert (0x00 + 256 * 0x00) [0x01] []) :=
  parseReadAttributesResponse_spec.2.1 0x00 0x00 0x10 [0x01] [] []
    (by decide) (by decide)

/-- C8: a trust-centre-join callback with status 3 removes the device
keyed by the IEEE address (rendered as byte-reversed colon-separated
hex) and publishes a `device_left` event; any other status inserts a
`KnownDevice` with type light and endpoint 1 under that key and
publishes `device_joined`; the example bytes 11..88 render as
"88:77:66:55:44:33:22:11"; and a join followed by a leave with the same
IEEE leaves the table without that device. -/
theorem handleTrustCenterJoin_spec :
    (∀ (devices : List (String × KnownDevice))
       (n0 n1 i0 i1 i2 i3 i4 i5 i6 i7 : Nat) (rest : List Nat),
      handleTrustCenterJoin devices
          (n0 :: n1 :: i0 :: i1 :: i2 :: i3 :: i4 :: i5 :: i6 :: i7 ::
            3 :: rest) =
        (mapErase (formatIEEE [i0, i1, i2, i3, i4, i5, i6, i7]) devices,
         [⟨.deviceLeft, formatIEEE [i0, i1, i2, i3, i4, i5, i6, i7]⟩])) ∧
    (∀ (devices : List (String × KnownDevice))
       (n0 n1 i0 i1 i2 i3 i4 i5 i6 i7 s : Nat) (rest : List Nat),
      s ≠ 3 →
      handleTrustCenterJoin devices
          (n0 :: n1 :: i0 :: i1 :: i2 :: i3 :: i4 :: i5 :: i6 :: i7 ::
            s :: rest) =
        (mapInsert (formatIEEE [i0, i1, i2, i3, i4, i5, i6, i7])
          ⟨[i0, i1, i2, i3, i4, i5, i6, i7], n0 + 256 * n1,
            deviceTypeLight, 1, []⟩ devices,
         [⟨.deviceJoined, formatIEEE [i0, i1, i2, i3, i4, i5, i6, i7]⟩])) ∧
    (formatIEEE [0x11, 0x22, 0x33, 0x44, 0x55, 0x66, 0x77, 0x88] =
      "88:77:66:55:44:33:22:11") ∧
    (∀ (devices : List (String × KnownDevice))
       (n0 n1 i0 i1 i2 i3 i4 i5 i6 i7 s m0 m1 : Nat)
       (rest rest' : List Nat),
      s ≠ 3 →
      mapLookup (formatIEEE [i0, i1, i2, i3, i4, i5, i6, i7])
        (handleTrustCenterJoin
          (handleTrustCenterJoin devices
            (n0 :: n1 :: i0 :: i1 :: i2 :: i3 :: i4 :: i5 :: i6 :: i7 ::
              s :: rest)).1
          (m0 :: m1 :: i0 :: i1 :: i2 :: i3 :: i4 :: i5 :: i6 :: i7 ::
            3 :: rest')).1 = none) := by
  have hleave : ∀ (devices : List (String × KnownDevice))
      (n0 n1 i0 i1 i2 i3 i4 i5 i6 i7 : Nat) (rest : List Nat),
      handleTrustCenterJoin devices
          (n0 :: n1 :: i0 :: i1 :: i2 :: i3 :: i4 :: i5 :: i6 :: i7 ::
            3 :: rest) =
        (mapErase (formatIEEE [i0, i1, i2, i3, i4, i5, i6, i7]) devices,
         [⟨.deviceLeft, formatIEEE [i0, i1, i2, i3, i4, i5, i6, i7]⟩]) := by
    intro devices n0 n1 i0 i1 i2 i3 i4 i5 i6 i7 rest
    have hlen : ¬((n0 :: n1 :: i0 :: i1 :: i2 :: i3 :: i4 :: i5 :: i6 ::
        i7 :: 3 :: rest).length < 11) := by
      simp
    simp [handleTrustCenterJoin, hlen]
  have hjoin : ∀ (devices : List (String × KnownDevice))
      (n0 n1 i0 i1 i2 i3 i4 i5 i6 i7 s : Nat) (rest : List Nat),
      s ≠ 3 →
      handleTrustCenterJoin devices
          (n0 :: n1 :: i0 :: i1 :: i2 :: i3 :: i4 :: i5 :: i6 :: i7 ::
            s :: rest) =
        (mapInsert (formatIEEE [i0, i1, i2, i3, i4, i5, i6, i7])
          ⟨[i0, i1, i2, i3, i4, i5, i6, i7], n0 + 256 * n1,
            deviceTypeLight, 1, []⟩ devices,
         [⟨.deviceJoined, formatIEEE [i0, i1, i2, i3, i4, i5, i6, i7]⟩]) := by
    intro devices n0 n1 i0 i1 i2 i3 i4 i5 i6 i7 s rest hs
    have hlen : ¬((n0 :: n1 :: i0 :: i1 :: i2 :: i3 :: i4 :: i5 :: i6 ::
        i7 :: s :: rest).length < 11) := by
      simp
    simp [handleTrustCenterJoin, hlen, hs]
  refine ⟨hleave, hjoin, by decide, ?_⟩
  intro devices n0 n1 i0 i1 i2 i3 i4 i5 i6 i7 s m0 m1 rest rest' hs
  rw [hjoin devices n0 n1 i0 i1 i2 i3 i4 i5 i6 i7 s rest hs]
  rw [hleave _ m0 m1 i0 i1 i2 i3 i4 i5 i6 i7 rest']
  exact mapLookup_mapErase _ _

/-- C8 witness: the join/leave cycle on IEEE bytes 11..88 leaves the
table empty at key "88:77:66:55:44:33:22:11". -/
theorem handleTrustCenterJoin_spec_witness :
    mapLookup (formatIEEE [0x11, 0x22, 0x33, 0x44, 0x55, 0x66, 0x77, 0x88])
      (handleTrustCenterJoin
        (handleTrustCenterJoin []
          (0xCD :: 0xAB :: 0x11 :: 0x22 :: 0x33 :: 0x44 :: 0x55 :: 0x66 ::
            0x77 :: 0x88 :: 1 :: [])).1
        (0xCD :: 0xAB :: 0x11 :: 0x22 :: 0x33 :: 0x44 :: 0x55 :: 0x66 ::
          0x77 :: 0x88 :: 3 :: [])).1 = none :=
  handleTrustCenterJoin_spec.2.2.2 [] 0xCD 0xAB 0x11 0x22 0x33 0x44 0x55
    0x66 0x77 0x88 1 0xCD 0xAB [] [] (by decide)

/-- C6: for a device present in the table with endpoint 1,
`SetDeviceState` with `{state: "ON", brightness: 200}` (and both
unicasts succeeding) issues exactly two `sendUnicast` commands in
order — cluster 0x0006 with ZCL cluster-specific command 0x01 and empty
command payload, then cluster 0x0008 with command 0x04 and command
payload `[0xC8, 0x0A, 0x00]` — and returns a state mapping with
state = "ON" and brightness = 200. -/
theorem setDeviceState_on_and_dim :
    ∀ (devices : List (String × KnownDevice)) (id : String)
      (kd : KnownDevice) (zclSeq : Nat),
      mapLookup id devices = some kd → kd.endpoint = 1 →
      (setDeviceState devices id
          [("state", GoVal.vstr "ON"), ("brightness", GoVal.vnum 200)]
          zclSeq [true, true]).2.2.2 =
        [⟨kd.nodeID, zclProfileHA, zclClusterOnOff, 1, 1,
           [0x01, nextZCLSeq zclSeq, zclCmdOn]⟩,
         ⟨kd.nodeID, zclProfileHA, zclClusterLevelControl, 1, 1,
           [0x01, nextZCLSeq (nextZCLSeq zclSeq),
            zclCmdMoveToLevelWithOnOff, 0xC8, 0x0A, 0x00]⟩] ∧
      ∃ snapshot,
        (setDeviceState devices id
            [("state", GoVal.vstr "ON"), ("brightness", GoVal.vnum 200)]
            zclSeq [true, true]).1 = Except.ok snapshot ∧
        mapLookup "state" snapshot = some (GoVal.vstr "ON") ∧
        mapLookup "brightness" snapshot = some (GoVal.vnum 200) := by
  intro devices id kd zclSeq h he
  have hup : goToUpper "ON" = "ON" := by decide
  have hlvl : ((200 : Int) % 256).toNat = 200 := by decide
  have main : setDeviceState devices id
      [("state", GoVal.vstr "ON"), ("brightness", GoVal.vnum 200)]
      zclSeq [true, true] =
      (Except.ok (mapInsert "brightness" (GoVal.vnum 200)
          (mapInsert "state" (GoVal.vstr "ON") kd.state)),
       mapInsert id
         { kd with state := (mapInsert "brightness" (GoVal.vnum 200)
             (mapInsert "state" (GoVal.vstr "ON") kd.state)) }
         (mapInsert id
           { kd with state := (mapInsert "state" (GoVal.vstr "ON") kd.state) }
           devices),
       nextZCLSeq (nextZCLSeq zclSeq),
       [⟨kd.nodeID, zclProfileHA, zclClusterOnOff, 1, 1,
          [0x01, nextZCLSeq zclSeq, zclCmdOn]⟩,
        ⟨kd.nodeID, zclProfileHA, zclClusterLevelControl, 1, 1,
          [0x01, nextZCLSeq (nextZCLSeq zclSeq),
           zclCmdMoveToLevelWithOnOff, 0xC8, 0x0A, 0x00]⟩]) := by
    simp [setDeviceState, setStateKey, mapLookup, h, he, hup, hlvl,
      buildOnOffCommand, buildMoveToLevelCommand, encodeZCLClusterCommand,
      zclFrameTypeClusterSpecific, zclDirectionClientToServer, zclCmdOn,
      zclCmdMoveToLevelWithOnOff]
    decide
  refine ⟨by rw [main], ?_⟩
  refine ⟨mapInsert "brightness" (GoVal.vnum 200)
    (mapInsert "state" (GoVal.vstr "ON") kd.state), by rw [main], ?_, ?_⟩
  · rw [mapLookup_mapInsert_ne _ _ _ _ (by decide),
      mapLookup_mapInsert_self]
  · rw [mapLookup_mapInsert_self]

/-- C6 witness: the double command on a concrete one-device table. -/
theorem setDeviceState_on_and_dim_witness :
    (setDeviceState [("d", ⟨[1, 2, 3, 4, 5, 6, 7, 8], 0x1234, "light", 1, []⟩)]
        "d" [("state", GoVal.vstr "ON"), ("brightness", GoVal.vnum 200)]
        0 [true, true]).2.2.2 =
      [⟨(0x1234 : Nat), zclProfileHA, zclClusterOnOff, 1, 1,
         [0x01, nextZCLSeq 0, zclCmdOn]⟩,
       ⟨(0x1234 : Nat), zclProfileHA, zclClusterLevelControl, 1, 1,
         [0x01, nextZCLSeq (nextZCLSeq 0),
          zclCmdMoveToLevelWithOnOff, 0xC8, 0x0A, 0x00]⟩] ∧
    ∃ snapshot,
      (setDeviceState [("d", ⟨[1, 2, 3, 4, 5, 6, 7, 8], 0x1234, "light", 1, []⟩)]
          "d" [("state", GoVal.vstr "ON"), ("brightness", GoVal.vnum 200)]
          0 [true, true]).1 = Except.ok snapshot ∧
      mapLookup "state" snapshot = some (GoVal.vstr "ON") ∧
      mapLookup "brightness" snapshot = some (GoVal.vnum 200) :=
  setDeviceState_on_and_dim
    [("d", ⟨[1, 2, 3, 4, 5, 6, 7, 8], 0x1234, "light", 1, []⟩)] "d"
    ⟨[1, 2, 3, 4, 5, 6, 7, 8], 0x1234, "light", 1, []⟩ 0 (by decide) rfl

/-- C7 counterexample: with a device present, a `state` value of a
non-string type (the number 5) does NOT fail with Validation — the call
returns ok with an empty snapshot — though it does send no unicast. -/
theorem setDeviceState_wrongtype_counterexample :
    (setDeviceState [("d", ⟨[1, 2, 3, 4, 5, 6, 7, 8], 0x1234, "light", 1, []⟩)]
        "d" [("state", GoVal.vnum 5)] 0 []).1 = Except.ok [] ∧
    (setDeviceState [("d", ⟨[1, 2, 3, 4, 5, 6, 7, 8], 0x1234, "light", 1, []⟩)]
        "d" [("state", GoVal.vnum 5)] 0 []).2.2.2 = [] :=
  ⟨rfl, rfl⟩

/-- C7 (amended): a `state` key holding a string that is not
(case-insensitively) ON, OFF or TOGGLE fails with the Validation error
kind and sends no unicast; a `state` value of non-string type is
silently skipped — no error and no On/Off unicast. -/
theorem setDeviceState_state_validation :
    (∀ (devices : List (String × KnownDevice)) (id : String)
       (kd : KnownDevice) (s : String) (zclSeq : Nat)
       (sendResults : List Bool),
      mapLookup id devices = some kd →
      goToUpper s ≠ "ON" → goToUpper s ≠ "OFF" → goToUpper s ≠ "TOGGLE" →
      setDeviceState devices id [("state", GoVal.vstr s)] zclSeq
          sendResults =
        (Except.error CtrlError.validation, devices, zclSeq, [])) ∧
    (∀ (devices : List (String × KnownDevice)) (id : String)
       (kd : KnownDevice) (v : GoVal) (zclSeq : Nat)
       (sendResults : List Bool),
      mapLookup id devices = some kd → (∀ s, v ≠ GoVal.vstr s) →
      setDeviceState devices id [("state", v)] zclSeq sendResults =
        (Except.ok kd.state, devices, zclSeq, [])) := by
  constructor
  · intro devices id kd s zclSeq sendResults h h1 h2 h3
    simp [setDeviceState, setStateKey, mapLookup, h, h1, h2, h3]
  · intro devices id kd v zclSeq sendResults h hv
    cases v with
    | vstr s => exact absurd rfl (hv s)
    | vnum n => simp [setDeviceState, setStateKey, mapLookup, h]
    | vbool b => simp [setDeviceState, setStateKey, mapLookup, h]

/-- C7 witness: a present device with state value "BLUE" yields the
Validation error and no unicast. -/
theorem setDeviceState_state_validation_witness :
    setDeviceState [("d", ⟨[1, 2, 3, 4, 5, 6, 7, 8], 0x1234, "light", 1, []⟩)]
        "d" [("state", GoVal.vstr "BLUE")] 0 [] =
      (Except.error CtrlError.validation,
       [("d", ⟨[1, 2, 3, 4, 5, 6, 7, 8], 0x1234, "light", 1, []⟩)], 0, []) :=
  setDeviceState_state_validation.1
    [("d", ⟨[1, 2, 3, 4, 5, 6, 7, 8], 0x1234, "light", 1, []⟩)] "d"
    ⟨[1, 2, 3, 4, 5, 6, 7, 8], 0x1234, "light", 1, []⟩ "BLUE" 0 []
    (by decide) (by decide) (by decide) (by decide)

/-- C10 witness: stuffing the flag byte itself produces an escape pair,
and the structural guarantees hold on that concrete output. -/
theorem ashStuff_reserved_free_witness :
    ∃ r, isAshReserved r = true ∧
      (ashStuff [0x7E, 0x42]).get? (0 + 1) = some (r ^^^ 0x20) :=
  ashStuff_reserved_free.2.1 [0x7E, 0x42] 0 (by decide)

end Homai
